import Mathlib

/-!
Verification of the cell-resolution core (`src/components/Table/Cell.tsx`) and
pagination arithmetic (`src/components/Table/PaginationControls.tsx`) of the
niagads-viz table layer.

JavaScript values relevant to the cell pipeline are embedded as follows:
scalars (`BasicType` in the source) are strings, integers and booleans;
a cell record is an association list of string keys to JSON values, with
property access modelled by `List.lookup` (an absent key is `undefined`);
`null` is an explicit JSON value distinct from an absent key.
-/

/-- Scalar values: the `BasicType` alias of the source (string, number, boolean).
Numbers are modelled as integers; no claim depends on float behaviour. -/
inductive BasicType where
  | str : String → BasicType
  | num : Int → BasicType
  | bool : Bool → BasicType
deriving DecidableEq

/-- A JSON value stored in a cell record: a scalar, an array of scalars
(allowed by `Record<string, BasicType | BasicType[]>`), or the null literal. -/
inductive JsonVal where
  | prim : BasicType → JsonVal
  | arr : List BasicType → JsonVal
  | nullVal : JsonVal
deriving DecidableEq

/-- A JavaScript object: association list from property names to values.
Property access is `List.lookup`; `none` models `undefined`. -/
abbrev Obj := List (String × JsonVal)

/-- A raw `GenericCell` input value: a scalar, a structured JSON object,
or the null literal. -/
inductive GenericCell where
  | scalar : BasicType → GenericCell
  | record : Obj → GenericCell
  | null : GenericCell
deriving DecidableEq

/-- `const NA_STRINGS = ['NA', 'N/A', 'NULL', '.', '']` -/
def NA_STRINGS : List String := ["NA", "N/A", "NULL", ".", ""]

/-- `const DEFAULT_NA_STRING = 'NA'` -/
def DEFAULT_NA_STRING : String := "NA"

/-- `const CELL_TYPE_VALIDATION_REFERENCE = [...]` -/
def CELL_TYPE_VALIDATION_REFERENCE : List String :=
  ["boolean", "abstract", "float", "text", "annotated_text", "badge", "link", "percentage_bar"]

/-- `String.prototype.toUpperCase` restricted to the characters the sentinel
comparison can meet: upper-case every character. -/
def jsToUpper (s : String) : String := String.mk (s.data.map Char.toUpper)

/-- JavaScript truthiness of a property-access result: `undefined`, `null`,
the empty string, `0` and `false` are falsy; every other value is truthy. -/
def jsTruthy : Option JsonVal → Bool
  | none => false
  | some .nullVal => false
  | some (.prim (.str s)) => !(s == "")
  | some (.prim (.num n)) => !(n == 0)
  | some (.prim (.bool b)) => b
  | some (.arr _) => true

/-- `validateCellType` of the source: `undefined` maps to `"abstract"`, a member
of `CELL_TYPE_VALIDATION_REFERENCE` is returned unchanged, anything else throws
`Invalid data type ...`; the thrown path is embedded as `Except.error`. -/
def validateCellType (ctype : Option String) : Except String String :=
  match ctype with
  | none => Except.ok "abstract"
  | some s =>
      if CELL_TYPE_VALIDATION_REFERENCE.contains s then Except.ok s
      else Except.error ("Invalid data type `" ++ s ++ "`")

/-- `__isNull` of the source. The JS guard `value && typeof value === 'string' &&
NA_STRINGS.includes(value.toUpperCase())` requires the string to be truthy,
i.e. non-empty, before the sentinel lookup; otherwise the value is null exactly
when it is the null literal or `undefined`. -/
def __isNull (value : Option JsonVal) : Bool :=
  match value with
  | some (.prim (.str s)) => !(s == "") && NA_STRINGS.contains (jsToUpper s)
  | none => true
  | some .nullVal => true
  | some _ => false

/-- `__resolveValue` of the source: substitute `naString` (default `'NA'`) for
null values, else return the raw `value` property. The `getD` default on the
non-null branch is unreachable because an absent `value` key is null. -/
def __resolveValue (props : Obj) : JsonVal :=
  let naString :=
    match props.lookup "naString" with
    | some v => v
    | none => JsonVal.prim (.str DEFAULT_NA_STRING)
  if __isNull (props.lookup "value") then naString
  else (props.lookup "value").getD JsonVal.nullVal

/-- `__resolveBooleanValue` of the source. -/
def __resolveBooleanValue (props : Obj) : JsonVal :=
  if __isNull (props.lookup "value") then
    if jsTruthy (props.lookup "nullAsFalse") then
      match props.lookup "falseStr" with
      | some v => v
      | none => JsonVal.prim (.str "FALSE")
    else __resolveValue props
  else if props.lookup "value" == some (JsonVal.prim (.bool true)) then
    match props.lookup "trueStr" with
    | some v => v
    | none => JsonVal.prim (.str "TRUE")
  else
    match props.lookup "falseStr" with
    | some v => v
    | none => JsonVal.prim (.str "FALSE")

/-- `Array.prototype.join` with a separator: empty array gives `""`, elements
are concatenated with the separator between consecutive elements. -/
def joinSep (sep : String) : List String → String
  | [] => ""
  | [x] => x
  | x :: y :: rest => x ++ sep ++ joinSep sep (y :: rest)

/-- JavaScript string conversion applied by `Array.prototype.join` to each
element: strings unchanged, numbers in decimal, booleans lowercase,
`null`/`undefined` become the empty string, arrays join with `","`. -/
def basicToString : BasicType → String
  | .str s => s
  | .num n => toString n
  | .bool b => if b then "true" else "false"

/-- String conversion of a JSON value (see `basicToString`). -/
def jsToString : JsonVal → String
  | .prim b => basicToString b
  | .nullVal => ""
  | .arr bs => joinSep "," (bs.map basicToString)

/-- The `Cell | Cell[]` argument type of `getCellValue`. -/
inductive CellInput where
  | single : Obj → CellInput
  | list : List Obj → CellInput
deriving DecidableEq

/-- The non-array body of `getCellValue`: dispatch on the `type` property,
`"boolean"` goes to `__resolveBooleanValue`, everything else to
`__resolveValue`. -/
def getCellValueSingle (cellProps : Obj) : JsonVal :=
  if cellProps.lookup "type" == some (JsonVal.prim (.str "boolean")) then
    __resolveBooleanValue cellProps
  else
    __resolveValue cellProps

/-- `getCellValue` of the source: an array maps each cell to its value and
joins the string conversions with `" // "`; a single cell dispatches on its
`type` property. -/
def getCellValue : CellInput → JsonVal
  | .list cells =>
      JsonVal.prim (.str (joinSep " // "
        (cells.map (fun item => jsToString (getCellValueSingle item)))))
  | .single props => getCellValueSingle props

/-- Modelled from the spec: the value classifier `_isJSON` of `@common/utils`
(not under `src/`) detects a structured (JSON-like, non-null, non-scalar)
object. -/
def _isJSON : GenericCell → Bool
  | .record _ => true
  | _ => false

/-- Modelled from the spec: `_deepCopy` of `@common/utils` (not under `src/`)
copies structured data with no aliasing; on immutable values it is the
identity. -/
def _deepCopy (fields : Obj) : Obj := fields

/-- `Object.assign(target, source)`: own properties of `source` are copied
onto `target`, so a key present in both takes its value from `source`.
Modelled up to key order, which no property lookup observes. -/
def objAssign (target source : Obj) : Obj :=
  target.filter (fun kv => (source.lookup kv.fst).isNone) ++ source

/-- The `GenericCell | GenericCell[]` argument type of `resolveCell`. -/
inductive GenericCellInput where
  | single : GenericCell → GenericCellInput
  | list : List GenericCell → GenericCellInput
deriving DecidableEq

/-- The non-array body of `resolveCell`. Warnings are modelled as the list of
cells passed to `console.warn`: a structured value whose resolved type is
`"abstract"` is warned about and coerced to `"text"`. The final
`Object.assign({'type': resolvedCellType}, resolvedCell)` puts the resolved
cell in source position, so its own properties win. -/
def resolveCellSingle (cell : GenericCell) (cellType : Option String) :
    Obj × List GenericCell :=
  let resolvedCellType := cellType.getD "abstract"
  let (resolvedCellType, resolvedCell, warnings) :=
    match cell with
    | .record fields =>
        if resolvedCellType == "abstract" then
          ("text", _deepCopy fields, [GenericCell.record fields])
        else
          (resolvedCellType, _deepCopy fields, [])
    | .scalar b =>
        (resolvedCellType, objAssign [("value", JsonVal.prim b)] [], ([] : List GenericCell))
    | .null =>
        (resolvedCellType, objAssign [("value", JsonVal.nullVal)] [], [])
  (objAssign [("type", JsonVal.prim (.str resolvedCellType))] resolvedCell, warnings)

/-- `resolveCell` of the source: arrays resolve element-wise with the same
declared type (warnings concatenate in order); a single value resolves through
`resolveCellSingle`. -/
def resolveCell : GenericCellInput → Option String → CellInput × List GenericCell
  | .list cells, cellType =>
      let results := cells.map (fun c => resolveCellSingle c cellType)
      (CellInput.list (results.map Prod.fst), (results.map Prod.snd).flatten)
  | .single c, cellType =>
      let r := resolveCellSingle c cellType
      (CellInput.single r.fst, r.snd)

/-- `lodash.range(start, stop, step)` for a positive step on naturals:
`max(ceil((stop - start) / step), 0)` elements `start + i * step`. -/
def lodashRange (start stop step : Nat) : List Nat :=
  (List.range ((stop - start + step - 1) / step)).map (fun i => start + step * i)

/-- `__generatePageSizeOptions` of the source: `nearestTenth` is
`Math.ceil(nRows / 10) * 10`, then the tiered option lists. -/
def __generatePageSizeOptions (nRows : Nat) : List Nat :=
  let nearestTenth := ((nRows + 9) / 10) * 10
  if nearestTenth >= 500 then [10, 20, 30, 40, 50, 100, 500]
  else if nearestTenth >= 100 then [10, 20, 30, 40, 50, 100]
  else if nearestTenth >= 50 then [10, 20, 30, 40, 50, nRows]
  else if nearestTenth >= 10 && nRows >= 10 then
    lodashRange 10 (nearestTenth + 10) 10 ++ [nRows]
  else [nRows]

/-- The displayed row-range computation inside the `PaginationControls`
component: `minDisplayedRow = pageIndex * pageSize + 1`,
`maxDisplayedRow = minDisplayedRow + pageSize - 1` clamped down to `nRows`. -/
def displayedRowRange (pageIndex pageSize nRows : Nat) : Nat × Nat :=
  let minDisplayedRow := pageIndex * pageSize + 1
  let maxDisplayedRow := minDisplayedRow + pageSize - 1
  (minDisplayedRow, if maxDisplayedRow > nRows then nRows else maxDisplayedRow)

/-- A scalar that the accessor pipeline treats as an NA sentinel: a string
whose upper-casing is in `NA_STRINGS`. Numbers and booleans never are. -/
def isNASentinelStr : BasicType → Bool
  | .str s => NA_STRINGS.contains (jsToUpper s)
  | _ => false

/-- Builds the record of a `BooleanCell` literal with the given `value`
(`none` embeds `null`), required `nullAsFalse`, and the optional
`trueStr`, `falseStr`, `naString` fields present only when given. -/
def optField (k : String) : Option String → Obj
  | some s => [(k, JsonVal.prim (.str s))]
  | none => []

/-- See `optField`: the association-list form of a `BooleanCell`. -/
def mkBooleanCell (value : Option Bool) (nullAsFalse : Bool)
    (trueStr falseStr naString : Option String) : Obj :=
  [("type", JsonVal.prim (.str "boolean")),
   ("value", match value with | some b => JsonVal.prim (.bool b) | none => JsonVal.nullVal),
   ("nullAsFalse", JsonVal.prim (.bool nullAsFalse))]
  ++ optField "trueStr" trueStr ++ optField "falseStr" falseStr
  ++ optField "naString" naString

/-- Rounding up to the nearest multiple of ten, stated independently of the
code's `Math.ceil(nRows / 10) * 10` formula. -/
def roundUpToTen (n : Nat) : Nat := if n % 10 = 0 then n else n + (10 - n % 10)


/-- The `Math.ceil` formula of the source computes rounding up to the nearest
multiple of ten. -/
theorem ceil_formula_eq_roundUpToTen (n : Nat) : ((n + 9) / 10) * 10 = roundUpToTen n := by
  unfold roundUpToTen
  split_ifs <;> omega

/-- The multiple-of-ten count of the rounded value. -/
theorem roundUpToTen_div_ten (n : Nat) : roundUpToTen n / 10 = (n + 9) / 10 := by
  unfold roundUpToTen
  split_ifs <;> omega

/-- Claim C3: `validateCellType` returns `"abstract"` on `undefined`, returns a
member of the fixed cell-type vocabulary unchanged, and fails on any other
string with an error naming the offending string. -/
theorem validateCellType_spec :
    validateCellType none = Except.ok "abstract" ∧
    (∀ s, s ∈ CELL_TYPE_VALIDATION_REFERENCE → validateCellType (some s) = Except.ok s) ∧
    (∀ s, s ∉ CELL_TYPE_VALIDATION_REFERENCE →
      validateCellType (some s) = Except.error ("Invalid data type `" ++ s ++ "`")) := by
  refine ⟨rfl, ?_, ?_⟩
  · intro s hs
    have hc : CELL_TYPE_VALIDATION_REFERENCE.contains s = true := by simpa using hs
    simp [validateCellType, hc, hs]
  · intro s hs
    have hc : CELL_TYPE_VALIDATION_REFERENCE.contains s = false := by simpa using hs
    simp [validateCellType, hc, hs]

/-- Witness for C3: `"badge"` passes through, `"bogus"` is rejected with an
error message naming it. -/
theorem validateCellType_spec_witness :
    validateCellType (some "badge") = Except.ok "badge" ∧
    validateCellType (some "bogus") = Except.error ("Invalid data type `" ++ "bogus" ++ "`") :=
  ⟨validateCellType_spec.2.1 "badge" (by decide),
   validateCellType_spec.2.2 "bogus" (by decide)⟩

/-- Claim C9: the accessor applied to the empty array of cells returns the
empty string, the join of zero values. -/
theorem getCellValue_empty_array : getCellValue (.list []) = JsonVal.prim (.str "") := rfl

/-- Claim C2: evaluation at the failing input. The empty string is listed in
`NA_STRINGS`, yet `__isNull` rejects it because the JS truthiness guard
`value && ...` short-circuits on `''`; resolving `''` as a text cell and
applying the accessor therefore returns `''` instead of the `"NA"` default. -/
theorem emptyString_sentinel_ignored :
    "" ∈ NA_STRINGS ∧
    __isNull (some (JsonVal.prim (.str ""))) = false ∧
    getCellValue (resolveCell (.single (.scalar (.str ""))) (some "text")).fst
      = JsonVal.prim (.str "") := by decide

/-- Claim C8: the displayed row range is
`[pageIndex * pageSize + 1, min(pageIndex * pageSize + 1 + pageSize - 1, nRows)]`,
the upper bound clamped to `nRows`. -/
theorem displayedRowRange_spec (pageIndex pageSize nRows : Nat) :
    displayedRowRange pageIndex pageSize nRows
      = (pageIndex * pageSize + 1,
         min (pageIndex * pageSize + 1 + pageSize - 1) nRows) := by
  simp only [displayedRowRange, Prod.mk.injEq, Nat.min_def, true_and]
  split_ifs <;> omega

/-- Claim C5: the boolean-cell accessor. A null value with `nullAsFalse` set
yields `falseStr` (default `"FALSE"`); null without `nullAsFalse` falls back to
the generic null substitution (`naString` or `"NA"`); a non-null value yields
`trueStr` (default `"TRUE"`) when true and `falseStr` (default `"FALSE"`)
otherwise. The two instances of the claim are included. -/
theorem booleanCell_accessor :
    (∀ (value : Option Bool) (nullAsFalse : Bool) (trueStr falseStr naString : Option String),
      getCellValue (.single (mkBooleanCell value nullAsFalse trueStr falseStr naString))
        = JsonVal.prim (.str (match value with
            | none => if nullAsFalse then falseStr.getD "FALSE" else naString.getD "NA"
            | some true => trueStr.getD "TRUE"
            | some false => falseStr.getD "FALSE"))) ∧
    getCellValue (.single (mkBooleanCell none true none (some "No") none))
      = JsonVal.prim (.str "No") ∧
    getCellValue (.single (mkBooleanCell (some true) false (some "Yes") none none))
      = JsonVal.prim (.str "Yes") := by
  refine ⟨?_, by decide, by decide⟩
  intro value nullAsFalse trueStr falseStr naString
  rcases value with _ | b
  all_goals cases nullAsFalse
  all_goals rcases trueStr with _ | t
  all_goals rcases falseStr with _ | f
  all_goals rcases naString with _ | n
  all_goals first | rfl | (cases b <;> rfl)

/-- A string whose upper-casing is not an NA sentinel is not null-detected. -/
theorem isNull_str_of_not_sentinel (s : String)
    (h : NA_STRINGS.contains (jsToUpper s) = false) :
    __isNull (some (JsonVal.prim (.str s))) = false := by
  have h2 : jsToUpper s ∉ NA_STRINGS := by simpa using h
  simp [__isNull, h2]

/-- Claim C1: for every scalar that is not an NA-sentinel string, resolving
with declared type `"text"` and applying the accessor returns the scalar
unchanged. -/
theorem getCellValue_resolveCell_text_roundtrip (v : BasicType)
    (h : isNASentinelStr v = false) :
    getCellValue (resolveCell (.single (.scalar v)) (some "text")).fst
      = JsonVal.prim v := by
  rcases v with s | n | b
  · have hs : NA_STRINGS.contains (jsToUpper s) = false := by
      simpa [isNASentinelStr] using h
    have hnull := isNull_str_of_not_sentinel s hs
    show (if __isNull (some (JsonVal.prim (.str s))) = true
          then JsonVal.prim (.str "NA")
          else JsonVal.prim (.str s)) = JsonVal.prim (.str s)
    rw [hnull]
    simp
  · rfl
  · rfl

/-- Witness for C1: the scalar `"hello"` round-trips. -/
theorem getCellValue_resolveCell_text_roundtrip_witness :
    isNASentinelStr (.str "hello") = false ∧
    getCellValue (resolveCell (.single (.scalar (.str "hello"))) (some "text")).fst
      = JsonVal.prim (.str "hello") :=
  ⟨by decide, getCellValue_resolveCell_text_roundtrip (.str "hello") (by decide)⟩

/-- Looking up a key in an `Object.assign` result whose single-key target is
not overridden by the source finds the target's value. -/
theorem lookup_objAssign_of_lookup_none (k : String) (v : JsonVal) (source : Obj)
    (h : source.lookup k = none) :
    (objAssign [(k, v)] source).lookup k = some v := by
  simp [objAssign, List.filter, h, List.lookup]

/-- On a structured value whose resolved type is `"abstract"` (no declared
type, or `"abstract"` declared), `resolveCellSingle` coerces to `"text"` and
warns. -/
theorem resolveCellSingle_record_abstract (fields : Obj) (cellType : Option String)
    (h : cellType.getD "abstract" = "abstract") :
    resolveCellSingle (.record fields) cellType
      = (objAssign [("type", JsonVal.prim (.str "text"))] fields,
         [GenericCell.record fields]) := by
  rcases cellType with _ | t
  · rfl
  · simp only [Option.getD] at h
    subst h
    rfl

/-- On a structured value with a declared type other than `"abstract"`,
`resolveCellSingle` keeps the declared type and does not warn. -/
theorem resolveCellSingle_record_declared (fields : Obj) (t : String)
    (h : (t == "abstract") = false) :
    resolveCellSingle (.record fields) (some t)
      = (objAssign [("type", JsonVal.prim (.str t))] fields, []) := by
  simp [resolveCellSingle, _deepCopy, h]

/-- Counterexample to claim C4 as stated: a structured value carrying its own
`type` property survives the final `Object.assign({'type': ...}, resolvedCell)`
merge, because `Object.assign` gives the source (the copied value) precedence.
The warning still fires, yet the resolved cell's type is `"abstract"`. -/
theorem resolveCell_structured_own_type_stays_abstract :
    (resolveCell (.single (.record [("type", JsonVal.prim (.str "abstract"))])) none).fst
      = CellInput.single [("type", JsonVal.prim (.str "abstract"))] := by decide

/-- Claim C4 as amended: for every structured value that has no own `type`
property, the resolved cell's type is never `"abstract"`; when no type is
declared or `"abstract"` is declared, the type is `"text"` and the warning
diagnostic is emitted; the operation is total (never throws). -/
theorem resolveCell_structured_never_abstract (fields : Obj) (cellType : Option String)
    (hty : fields.lookup "type" = none) :
    ((resolveCellSingle (.record fields) cellType).fst.lookup "type"
        ≠ some (JsonVal.prim (.str "abstract"))) ∧
    ((cellType = none ∨ cellType = some "abstract") →
      (resolveCellSingle (.record fields) cellType).fst.lookup "type"
          = some (JsonVal.prim (.str "text")) ∧
      (resolveCellSingle (.record fields) cellType).snd
          = [GenericCell.record fields]) := by
  constructor
  · rcases hc : cellType with _ | t
    · rw [resolveCellSingle_record_abstract fields none rfl]
      rw [lookup_objAssign_of_lookup_none "type" _ fields hty]
      simp
    · rcases ht : t == "abstract" with _ | _
      · rw [resolveCellSingle_record_declared fields t ht]
        rw [lookup_objAssign_of_lookup_none "type" _ fields hty]
        have : t ≠ "abstract" := by simpa using ht
        simp [this]
      · have ht2 : t = "abstract" := by simpa using ht
        subst ht2
        rw [resolveCellSingle_record_abstract fields (some "abstract") rfl]
        rw [lookup_objAssign_of_lookup_none "type" _ fields hty]
        simp
  · intro hdecl
    have h : cellType.getD "abstract" = "abstract" := by
      rcases hdecl with rfl | rfl <;> rfl
    rw [resolveCellSingle_record_abstract fields cellType h]
    exact ⟨lookup_objAssign_of_lookup_none "type" _ fields hty, rfl⟩

/-- Witness for the amended C4: a structured value `\x7b a: 1 \x7d` with no
declared type resolves to type `"text"` with a warning. -/
theorem resolveCell_structured_never_abstract_witness :
    ([(("a" : String), JsonVal.prim (.num 1))].lookup "type" = none) ∧
    (resolveCellSingle (.record [("a", JsonVal.prim (.num 1))]) none).fst.lookup "type"
        = some (JsonVal.prim (.str "text")) :=
  ⟨by decide,
   ((resolveCell_structured_never_abstract [("a", JsonVal.prim (.num 1))] none
      (by decide)).2 (Or.inl rfl)).1⟩

/-- Prepending onto the head of a non-empty join distributes over append. -/
theorem joinSep_cons_append (sep x y : String) (t : List String) :
    joinSep sep ((x ++ y) :: t) = x ++ joinSep sep (y :: t) := by
  cases t <;> simp [joinSep, String.append_assoc]

/-- The accumulator loop of `String.intercalate` computes `joinSep`. -/
theorem intercalate_go_eq_joinSep (sep : String) (as : List String) :
    ∀ a : String, String.intercalate.go a sep as = joinSep sep (a :: as) := by
  induction as with
  | nil => intro a; rfl
  | cons b t ih =>
      intro a
      show String.intercalate.go (a ++ sep ++ b) sep t = joinSep sep (a :: b :: t)
      rw [ih (a ++ sep ++ b), joinSep_cons_append]
      cases t <;> simp [joinSep, String.append_assoc]

/-- `joinSep` agrees with the library `String.intercalate`. -/
theorem joinSep_eq_intercalate (sep : String) (l : List String) :
    joinSep sep l = String.intercalate sep l := by
  cases l with
  | nil => rfl
  | cons a as => exact (intercalate_go_eq_joinSep sep as a).symm

/-- Claim C6: the accessor on an array of cells is the `" // "`-join of the
recursively accessed element values; for a two-element array this is
`valueA ++ " // " ++ valueB`. -/
theorem getCellValue_array_join :
    (∀ cells : List Obj,
      getCellValue (.list cells)
        = JsonVal.prim (.str (String.intercalate " // "
            (cells.map (fun item => jsToString (getCellValueSingle item)))))) ∧
    (∀ a b : Obj,
      getCellValue (.list [a, b])
        = JsonVal.prim (.str (jsToString (getCellValueSingle a) ++ " // "
            ++ jsToString (getCellValueSingle b)))) := by
  constructor
  · intro cells
    simp [getCellValue, joinSep_eq_intercalate]
  · intro a b
    rfl

/-- The lodash range `range(10, 10k + 10, 10)` is the first `k` positive
multiples of ten. -/
theorem lodashRange_tens (k : Nat) :
    lodashRange 10 (10 * k + 10) 10 = (List.range k).map (fun i => 10 * (i + 1)) := by
  unfold lodashRange
  have h : (10 * k + 10 - 10 + 10 - 1) / 10 = k := by omega
  have hf : (fun i : Nat => 10 + 10 * i) = (fun i : Nat => 10 * (i + 1)) := by
    funext i
    omega
  rw [h, hf]

/-- Claim C7: the tiered page-size option rule, with comparisons taken on the
row count rounded up to the nearest ten, and the two instances of the claim. -/
theorem generatePageSizeOptions_tiers (nRows : Nat) :
    (roundUpToTen nRows ≥ 500 →
      __generatePageSizeOptions nRows = [10, 20, 30, 40, 50, 100, 500]) ∧
    (roundUpToTen nRows < 500 → roundUpToTen nRows ≥ 100 →
      __generatePageSizeOptions nRows = [10, 20, 30, 40, 50, 100]) ∧
    (roundUpToTen nRows < 100 → roundUpToTen nRows ≥ 50 →
      __generatePageSizeOptions nRows = [10, 20, 30, 40, 50, nRows]) ∧
    (roundUpToTen nRows < 50 → 10 ≤ nRows →
      __generatePageSizeOptions nRows
        = (List.range (roundUpToTen nRows / 10)).map (fun i => 10 * (i + 1)) ++ [nRows]) ∧
    (nRows < 10 → __generatePageSizeOptions nRows = [nRows]) ∧
    __generatePageSizeOptions 37 = [10, 20, 30, 40, 37] ∧
    __generatePageSizeOptions 600 = [10, 20, 30, 40, 50, 100, 500] := by
  have hb := ceil_formula_eq_roundUpToTen nRows
  refine ⟨?_, ?_, ?_, ?_, ?_, by decide, by decide⟩
  · intro h
    have h1 : ((nRows + 9) / 10) * 10 ≥ 500 := by omega
    simp only [__generatePageSizeOptions]
    rw [if_pos h1]
  · intro hlt h
    have h1 : ¬ ((nRows + 9) / 10) * 10 ≥ 500 := by omega
    have h2 : ((nRows + 9) / 10) * 10 ≥ 100 := by omega
    simp only [__generatePageSizeOptions]
    rw [if_neg h1, if_pos h2]
  · intro hlt h
    have h1 : ¬ ((nRows + 9) / 10) * 10 ≥ 500 := by omega
    have h2 : ¬ ((nRows + 9) / 10) * 10 ≥ 100 := by omega
    have h3 : ((nRows + 9) / 10) * 10 ≥ 50 := by omega
    simp only [__generatePageSizeOptions]
    rw [if_neg h1, if_neg h2, if_pos h3]
  · intro hlt hge
    have h1 : ¬ ((nRows + 9) / 10) * 10 ≥ 500 := by omega
    have h2 : ¬ ((nRows + 9) / 10) * 10 ≥ 100 := by omega
    have h3 : ¬ ((nRows + 9) / 10) * 10 ≥ 50 := by omega
    have h4 : (decide (((nRows + 9) / 10) * 10 ≥ 10) && decide (nRows ≥ 10)) = true := by
      rw [Bool.and_eq_true, decide_eq_true_eq, decide_eq_true_eq]
      constructor <;> omega
    simp only [__generatePageSizeOptions]
    rw [if_neg h1, if_neg h2, if_neg h3, if_pos h4]
    congr 1
    have hk : ((nRows + 9) / 10) * 10 + 10 = 10 * ((nRows + 9) / 10) + 10 := by ring
    rw [hk, lodashRange_tens, roundUpToTen_div_ten]
  · intro h
    have h1 : ¬ ((nRows + 9) / 10) * 10 ≥ 500 := by omega
    have h2 : ¬ ((nRows + 9) / 10) * 10 ≥ 100 := by omega
    have h3 : ¬ ((nRows + 9) / 10) * 10 ≥ 50 := by omega
    have h4 : ¬ ((decide (((nRows + 9) / 10) * 10 ≥ 10) && decide (nRows ≥ 10)) = true) := by
      simp only [Bool.and_eq_true, decide_eq_true_eq]
      omega
    simp only [__generatePageSizeOptions]
    rw [if_neg h1, if_neg h2, if_neg h3, if_neg h4]

/-- Witness for C7: `nRows = 37` lands in the fourth tier and also matches the
claim's literal expected list. -/
theorem generatePageSizeOptions_tiers_witness :
    roundUpToTen 37 < 50 ∧ 10 ≤ 37 ∧
    __generatePageSizeOptions 37
      = (List.range (roundUpToTen 37 / 10)).map (fun i => 10 * (i + 1)) ++ [37] :=
  ⟨by decide, by decide,
   (generatePageSizeOptions_tiers 37).2.2.2.1 (by decide) (by decide)⟩

/-- Claim C10: for a positive multiple of ten between 10 and 40, the generated
option list contains the row count twice: once as the last generated multiple
of ten and once as the appended exact row count. -/
theorem pageSizeOptions_duplicate_multiple_of_ten (nRows : Nat)
    (h1 : 10 ≤ nRows) (h2 : nRows ≤ 40) (h3 : nRows % 10 = 0) :
    List.count nRows (__generatePageSizeOptions nRows) = 2 := by
  interval_cases nRows
  all_goals first | decide | (exact absurd h3 (by decide))

/-- Witness for C10: `nRows = 40` yields `[10, 20, 30, 40, 40]`, containing 40
twice. -/
theorem pageSizeOptions_duplicate_multiple_of_ten_witness :
    __generatePageSizeOptions 40 = [10, 20, 30, 40, 40] ∧
    List.count 40 (__generatePageSizeOptions 40) = 2 :=
  ⟨by decide,
   pageSizeOptions_duplicate_multiple_of_ten 40 (by decide) (by decide) (by decide)⟩
